import Mathlib

/-!
# The kpt v2 deployer of skaffold (`pkg/skaffold/deploy/v2/kpt/kpt.go`)

A shallow embedding of `NewDeployer`, `getManifests`, `kptfileInitIfNot`,
`Deploy` and `Cleanup`.  The Go code is imperative and talks to the outside
world (the `kpt` binary, the file system, the event stream); the embedding
passes an explicit `World` (the files and the ordered record of every side
effect) and takes the answers of the outside world from an `Env` of oracles
that may depend on the whole history.
-/

namespace Kpt

/-! ## Data model -/

/-- The constant `deployerName` (kpt.go, line 53). -/
def deployerName : String := "kptV2"

/-- The constant `defaultNs` (kpt.go, line 54). -/
def defaultNs : String := "default"

/-- Modelled from the spec: the constant `kptfile.KptFileName` (package
`render/kptfile`, not under src/), the fixed filename of the descriptor inside
the package directory. -/
def KptFileName : String := "Kptfile"

/-- The fields of `latestV2.KptV2Deploy` that kpt.go reads or writes. -/
structure KptV2Deploy where
  Dir : String
  Flags : List String
  ApplyFlags : List String
  Name : String
  InventoryID : String
  InventoryNamespace : String
  Force : Bool
deriving DecidableEq

/-- The fields of `config.SkaffoldOptions` that `NewDeployer` reads. -/
structure SkaffoldOptions where
  InventoryNamespace : String
  InventoryID : String
  InventoryName : String
deriving DecidableEq

/-- The values `NewDeployer` obtains from its `Config` argument. -/
structure Config where
  InsecureRegistries : List (String × Bool)
  GlobalConfig : String
  KubeContext : String
  KubeConfig : String
  KubeNamespace : String
deriving DecidableEq

/-- The build artifact `graph.Artifact`: image name and tag. -/
structure Artifact where
  ImageName : String
  Tag : String
deriving DecidableEq

/-- The data fields of `Deployer` (kpt.go, lines 63-82).  The embedded pointer
`*latestV2.KptV2Deploy` is the field `KptV2Deploy`; the component handles
(accessor, logger, debugger, monitor, syncer) carry no data this file reads;
the Go field named namespace is the field ns, since that word is reserved. -/
structure Deployer where
  KptV2Deploy : KptV2Deploy
  applyDir : String
  insecureRegistries : List (String × Bool)
  labels : List (String × String)
  globalConfig : String
  kubeContext : String
  kubeConfig : String
  ns : String
deriving DecidableEq

/-- Modelled from the spec: `kptfile.Inventory` (type declaration not under
src/).  The three intent fields that kpt.go assigns, and `Rest` for whatever
further fields the type declares. -/
structure Inventory where
  Namespace : String
  Name : String
  InventoryID : String
  Rest : List (String × String)
deriving DecidableEq

/-- Modelled from the spec: `kptfile.KptFile` (type declaration not under
src/): a structured document containing the inventory metadata under a
well-known key (a nil pointer when the section is missing); `Sections` are the
other sections the type declares, by key. -/
structure KptFile where
  Sections : List (String × String)
  Inventory : Option Inventory
deriving DecidableEq

/-- What a file holds.  Bytes on which the yaml decoder fails; the yaml
document `null`, which decodes without error into a nil pointer; or a document:
the part that the `KptFile` type declares together with the top-level fields
that the type does not declare. -/
inductive Content where
  | unparseable (bytes : String)
  | null
  | document (typed : KptFile) (unknown : List (String × String))
deriving DecidableEq

/-- Modelled from the spec: the error functions of this package (errors.go, not
under src/) that kpt.go calls, `sourceErr` to `liveDestroyErr`, each an error
kind of its own keeping the cause and the directory or path it is given.  The
other two constructors are Go `error` values from outside the package:
`underlying` is an error produced by the operating system, by the `kpt` process
or by the yaml library, and `errorf` is `fmt.Errorf(msg, ..., err)` wrapping
`err`.  `panic` is the `runtime.Error` of a run-time panic: it is never the
value of a `return`; a result that carries it says that the function did not
return but panicked, and a caller passes it on unchanged, as the panic unwinds
through the caller. -/
inductive Error where
  | underlying (msg : String)
  | panic (msg : String)
  | errorf (msg : String) (err : Error)
  | sourceErr (err : Error) (dir : String)
  | pkgInitErr (err : Error) (dir : String)
  | openFileErr (err : Error) (path : String)
  | parseFileErr (err : Error) (path : String)
  | liveInitErr (err : Error) (dir : String)
  | liveApplyErr (err : Error) (dir : String)
  | liveDestroyErr (err : Error) (dir : String)
deriving DecidableEq

/-- One side effect, in the order the program performs them: a process run
through `util.RunCmd` or `util.RunCmdOut`, an `ioutil.WriteFile`, an
`event.DeployInfoEvent`, and a call of `TrackBuildArtifacts`. -/
inductive Event where
  | cmd (name : String) (args : List String)
  | writeFile (path : String) (content : Content)
  | deployInfo (err : Error)
  | trackBuildArtifacts (artifacts : List Artifact)
deriving DecidableEq

/-- The state outside the program: the files by path and the record of side
effects so far. -/
structure World where
  files : String → Option Content
  events : List Event

/-- The answers of the outside world.  Every oracle sees the `World` at the
moment of the call, so the same command may succeed once and fail later.

* `Join` is `filepath.Join`.
* `RunCmd` is `util.RunCmd`: the error (if any) and the files the process
  leaves behind.
* `RunCmdOut` is `util.RunCmdOut`: standard output or the error, and the files.
* `openFail` is the failure of `openFile` on a file that exists; `noEntry` is
  its error on a file that does not.
* `decodeErr` is the error of the yaml decoder on bytes that do not decode.
* `marshalFail` is the failure (if any) of `yaml.Marshal`.
* `writeFail` is the failure of `ioutil.WriteFile`: the error and what the
  failed write left at the path.
* `readItems` is `framework.ResourceList.Read` followed by `String()` of each
  item: the read error, or per item its text or error.
* `Append` is `manifest.ManifestList.Append`.
* `namespaceOf` reads the namespaces one manifest declares. -/
structure Env where
  Join : String → String → String
  RunCmd : World → String → List String → Option Error × (String → Option Content)
  RunCmdOut : World → String → List String → Except Error String × (String → Option Content)
  openFail : World → String → Option Error
  noEntry : String → Error
  decodeErr : String → Error
  marshalFail : World → KptFile → Option Error
  writeFail : World → String → Content → Option (Error × Option Content)
  readItems : String → Except Error (List (Except Error String))
  Append : List String → String → List String
  namespaceOf : String → Except Error (List String)

/-! ## NewDeployer -/

/-- `NewDeployer` (kpt.go, lines 90-126).  The Go code updates `d` in place and
stores that pointer in the Deployer; here the updated value is the field
`KptV2Deploy` of the result. -/
def NewDeployer (cfg : Config) (labels : List (String × String)) (d : KptV2Deploy)
    (opts : SkaffoldOptions) : Deployer :=
  let d1 : KptV2Deploy :=
    if d.InventoryNamespace = "" then
      if opts.InventoryNamespace ≠ "" then
        { d with InventoryNamespace := opts.InventoryNamespace }
      else
        { d with InventoryNamespace := defaultNs }
    else d
  let d2 : KptV2Deploy :=
    if d1.InventoryID = "" ∧ opts.InventoryID ≠ "" then
      { d1 with InventoryID := opts.InventoryID }
    else d1
  let d3 : KptV2Deploy :=
    if d2.Name = "" ∧ opts.InventoryName ≠ "" then
      { d2 with Name := opts.InventoryName }
    else d2
  { KptV2Deploy := d3
    applyDir := d3.Dir
    insecureRegistries := cfg.InsecureRegistries
    labels := labels
    globalConfig := cfg.GlobalConfig
    kubeContext := cfg.KubeContext
    kubeConfig := cfg.KubeConfig
    ns := cfg.KubeNamespace }

/-! ## Primitive effects -/

/-- Adds one side effect at the end of the record. -/
def World.emit (w : World) (e : Event) : World :=
  { w with events := w.events ++ [e] }

/-- `util.RunCmd(exec.CommandContext(ctx, name, args...))`: the run is recorded,
the files become what the process left, the result is its error, if any. -/
def runCmd (env : Env) (w : World) (name : String) (args : List String) :
    Option Error × World :=
  ((env.RunCmd w name args).1,
    { files := (env.RunCmd w name args).2, events := w.events ++ [Event.cmd name args] })

/-- `util.RunCmdOut(exec.CommandContext(ctx, name, args...))`. -/
def runCmdOut (env : Env) (w : World) (name : String) (args : List String) :
    Except Error String × World :=
  ((env.RunCmdOut w name args).1,
    { files := (env.RunCmdOut w name args).2, events := w.events ++ [Event.cmd name args] })

/-- `openFile` (the variable of line 58, `os.Open`): fails on a missing file,
may fail on an existing one, otherwise gives what the file holds. -/
def openFile (env : Env) (w : World) (path : String) : Except Error Content :=
  match w.files path with
  | none => .error (env.noEntry path)
  | some c =>
    match env.openFail w path with
    | some err => .error err
    | none => .ok c

/-- The message of the run-time panic on a nil pointer dereference. -/
def nilDereference : String :=
  "runtime error: invalid memory address or nil pointer dereference"

/-- `yaml.NewDecoder(file).Decode(&kfConfig)`, where `kfConfig` points to a
fresh `KptFile` (lines 203-204): the result is the pointer `kfConfig`
afterwards.  The decoder fills the fields the type declares; fields of the
document that the type does not declare have nowhere to go.  The document
`null` is decoded without error and sets the pointer to nil. -/
def decode (env : Env) : Content → Except Error (Option KptFile)
  | .unparseable bytes => .error (env.decodeErr bytes)
  | .null => .ok none
  | .document typed _ => .ok (some typed)

/-- `yaml.Marshal(kfConfig)`: the bytes are produced from the `KptFile` value
alone, so the document they form has the declared fields only. -/
def marshal (env : Env) (w : World) (kfConfig : KptFile) : Except Error Content :=
  match env.marshalFail w kfConfig with
  | some err => .error err
  | none => .ok (.document kfConfig [])

/-- `ioutil.WriteFile(path, content, 0644)`: recorded; on success the file
holds `content`, on failure it holds what the failed write left. -/
def writeFile (env : Env) (w : World) (path : String) (content : Content) :
    Option Error × World :=
  match env.writeFail w path content with
  | some (err, left) =>
    (some err, { files := Function.update w.files path left,
                 events := w.events ++ [Event.writeFile path content] })
  | none =>
    (none, { files := Function.update w.files path (some content),
             events := w.events ++ [Event.writeFile path content] })

/-! ## TrackBuildArtifacts and getManifests -/

/-- `Deployer.TrackBuildArtifacts` (kpt.go, lines 149-152): hands the artifacts
to the pod selector and to the logger, both outside this file; recorded as one
side effect. -/
def TrackBuildArtifacts (w : World) (artifacts : List Artifact) : World :=
  w.emit (Event.trackBuildArtifacts artifacts)

/-- The loop of lines 171-177 of `getManifests`: appends the text of every item
to `newBuf`, stopping at the first item whose `String()` fails. -/
def appendItems : List (Except Error String) → String → Except Error String
  | [], newBuf => .ok newBuf
  | .error err :: _, _ => .error err
  | .ok item :: rest, newBuf => appendItems rest (newBuf ++ item)

/-- `Deployer.getManifests` (kpt.go, lines 154-183).  The nil manifest list is
the empty list. -/
def getManifests (env : Env) (w : World) (k : Deployer) :
    (List String × Option Error) × World :=
  let r := runCmdOut env w "kpt" ["fn", "source", k.applyDir]
  match r.1 with
  | .error err => (([], some (Error.sourceErr err k.applyDir)), r.2)
  | .ok buf =>
    match env.readItems buf with
    | .error err => (([], some (Error.sourceErr err k.applyDir)), r.2)
    | .ok items =>
      match appendItems items "" with
      | .error err => (([], some (Error.sourceErr err k.applyDir)), r.2)
      | .ok newBuf =>
        let manifests : List String := []
        let manifests := if 0 < buf.length then env.Append manifests newBuf else manifests
        ((manifests, none), r.2)

/-- The namespaces declared by the manifests of a list, in order, or the error
of the first manifest that cannot be read. -/
def declaredNamespaces (env : Env) : List String → Except Error (List String)
  | [] => .ok []
  | m :: rest =>
    match env.namespaceOf m with
    | .error err => .error err
    | .ok found =>
      match declaredNamespaces env rest with
      | .error err => .error err
      | .ok more => .ok (found ++ more)

/-- Modelled from the spec: `manifest.ManifestList.CollectNamespaces` (package
`kubernetes/manifest`, not under src/): derives the distinct set of namespaces
declared across all manifest items; when a manifest cannot be read the result is
an error and no namespaces. -/
def CollectNamespaces (env : Env) (manifests : List String) : List String × Option Error :=
  match declaredNamespaces env manifests with
  | .error err => ([], some (Error.errorf "collecting namespaces" err))
  | .ok found => (found.dedup, none)

/-! ## kptfileInitIfNot -/

/-- Lines 188-197 of `kptfileInitIfNot`: when `os.Stat` reports that the
Kptfile does not exist, run `kpt pkg init <applyDir>`. -/
def initKptfileIfAbsent (env : Env) (w : World) (k : Deployer) : Option Error × World :=
  if w.files (env.Join k.applyDir KptFileName) = none then
    match runCmd env w "kpt" ["pkg", "init", k.applyDir] with
    | (some err, w1) => (some (Error.pkgInitErr err k.applyDir), w1)
    | (none, w1) => (none, w1)
  else (none, w)

/-- Lines 198-206 of `kptfileInitIfNot`: open the Kptfile and decode it; the
value is the pointer `kfConfig`, nil after the document `null`. -/
def readKptfile (env : Env) (w : World) (kptFilePath : String) :
    Except Error (Option KptFile) :=
  match openFile env w kptFilePath with
  | .error err => .error (Error.openFileErr err kptFilePath)
  | .ok file =>
    match decode env file with
    | .error err => .error (Error.parseFileErr err kptFilePath)
    | .ok kfConfig => .ok kfConfig

/-- Lines 212-225 of `kptfileInitIfNot`: the arguments of `kpt live init`. -/
def liveInitArgs (k : Deployer) : List String :=
  let args := ["live", "init", k.applyDir]
  let args := args ++ k.KptV2Deploy.Flags
  let args := if k.KptV2Deploy.Name ≠ "" then args ++ ["--name", k.KptV2Deploy.Name] else args
  let args :=
    if k.KptV2Deploy.InventoryID ≠ "" then args ++ ["--inventory-id", k.KptV2Deploy.InventoryID]
    else args
  let args :=
    if k.KptV2Deploy.InventoryNamespace ≠ defaultNs then
      args ++ ["--namespace", k.KptV2Deploy.InventoryNamespace]
    else args
  let args := if k.KptV2Deploy.Force then args ++ ["--force", "true"] else args
  args

/-- Lines 234-236 of `kptfileInitIfNot`: the three assignments to the inventory
of the decoded descriptor. -/
def setInventory (k : Deployer) (kfConfig : KptFile) (inv : Inventory) : KptFile :=
  { kfConfig with
    Inventory := some { inv with
      InventoryID := k.KptV2Deploy.InventoryID
      Name := k.KptV2Deploy.Name
      Namespace := k.KptV2Deploy.InventoryNamespace } }

/-- `kptfileInitIfNot` (kpt.go, lines 186-246).  With a nil `kfConfig` the
expression `kfConfig.Inventory` of line 210 dereferences a nil pointer: the
function panics there, before any `kpt live init`. -/
def kptfileInitIfNot (env : Env) (w : World) (k : Deployer) : Option Error × World :=
  let kptFilePath := env.Join k.applyDir KptFileName
  match initKptfileIfAbsent env w k with
  | (some err, w1) => (some err, w1)
  | (none, w1) =>
    match readKptfile env w1 kptFilePath with
    | .error err => (some err, w1)
    | .ok none => (some (Error.panic nilDereference), w1)
    | .ok (some kfConfig) =>
      match kfConfig.Inventory with
      | none =>
        match runCmd env w1 "kpt" (liveInitArgs k) with
        | (some err, w2) => (some (Error.liveInitErr err k.applyDir), w2)
        | (none, w2) => (none, w2)
      | some inv =>
        match marshal env w1 (setInventory k kfConfig inv) with
        | .error err => (some err, w1)
        | .ok configByte =>
          match writeFile env w1 kptFilePath configByte with
          | (some err, w2) => (some err, w2)
          | (none, w2) => (none, w2)

/-! ## Deploy and Cleanup -/

/-- The type of the variable `kptInitFunc` (line 59), whose value is
`kptfileInitIfNot` unless a caller replaces it.  `Deploy` and `Cleanup` pass on
whatever it gives that is not nil, an error it returned or its panic. -/
abbrev InitFunc := World → Deployer → Option Error × World

/-- Lines 256-269 of `Deploy`: read the manifests and collect their namespaces;
a failure of either is reported through `event.DeployInfoEvent` and nothing
else.  The result is the value of `namespaces` and the world afterwards. -/
def collect (env : Env) (w1 : World) (k : Deployer) : List String × World :=
  let m := getManifests env w1 k
  let w2 :=
    match m.1.2 with
    | some err =>
      m.2.emit (Event.deployInfo
        (Error.errorf ("could not read the hydrated manifest from " ++ k.applyDir) err))
    | none => m.2
  let n := CollectNamespaces env m.1.1
  let w3 :=
    match n.2 with
    | some err =>
      w2.emit (Event.deployInfo
        (Error.errorf ("could not fetch deployed resource namespace. " ++
          "This might cause port-forward and deploy health-check to fail") err))
    | none => w2
  (n.1, w3)

/-- Lines 272-275 of `Deploy`: the arguments of `kpt live apply`. -/
def liveApplyArgs (k : Deployer) : List String :=
  let args := ["live", "apply", k.applyDir]
  let args := args ++ k.KptV2Deploy.Flags
  let args := args ++ k.KptV2Deploy.ApplyFlags
  args

/-- Lines 307-308 of `Cleanup`: the arguments of `kpt live destroy`. -/
def liveDestroyArgs (k : Deployer) : List String :=
  let args := ["live", "destroy", k.applyDir]
  let args := args ++ k.KptV2Deploy.Flags
  args

/-- `Deployer.Deploy` (kpt.go, lines 248-286).  The result is the Go pair
`([]string, error)`, the nil slice being the empty list. -/
def Deploy (kptInitFunc : InitFunc) (env : Env) (w : World) (k : Deployer)
    (builds : List Artifact) : (List String × Option Error) × World :=
  match kptInitFunc w k with
  | (some err, w1) => (([], some err), w1)
  | (none, w1) =>
    let c := collect env w1 k
    match runCmd env c.2 "kpt" (liveApplyArgs k) with
    | (some err, w4) => (([], some (Error.liveApplyErr err k.applyDir)), w4)
    | (none, w4) => ((c.1, none), TrackBuildArtifacts w4 builds)

/-- `Deployer.Cleanup` (kpt.go, lines 299-317). -/
def Cleanup (kptInitFunc : InitFunc) (env : Env) (w : World) (k : Deployer) :
    Option Error × World :=
  match kptInitFunc w k with
  | (some err, w1) => (some err, w1)
  | (none, w1) =>
    match runCmd env w1 "kpt" (liveDestroyArgs k) with
    | (some err, w2) => (some (Error.liveDestroyErr err k.applyDir), w2)
    | (none, w2) => (none, w2)

/-- The argument lists of the processes in a record, in order. -/
def cmdsOf : List Event → List (String × List String)
  | [] => []
  | Event.cmd name args :: rest => (name, args) :: cmdsOf rest
  | _ :: rest => cmdsOf rest

/-- The artifact lists handed to `TrackBuildArtifacts` in a record, in order. -/
def trackedOf : List Event → List (List Artifact)
  | [] => []
  | Event.trackBuildArtifacts artifacts :: rest => artifacts :: trackedOf rest
  | _ :: rest => trackedOf rest

/-! ## A concrete outside world, for evaluating the definitions -/

/-- An outside world in which nothing fails: every process succeeds and leaves
the files alone, `filepath.Join` puts a slash between its arguments, the source
command prints nothing. -/
def calmEnv : Env where
  Join := fun dir name => dir ++ "/" ++ name
  RunCmd := fun w _ _ => (none, w.files)
  RunCmdOut := fun w _ _ => (.ok "", w.files)
  openFail := fun _ _ => none
  noEntry := fun _ => Error.underlying "no such file or directory"
  decodeErr := fun _ => Error.underlying "yaml: cannot decode"
  marshalFail := fun _ _ => none
  writeFail := fun _ _ _ => none
  readItems := fun _ => .ok []
  Append := fun manifests buf => manifests ++ [buf]
  namespaceOf := fun _ => .ok []

/-- A deployer for the package directory `pkg`. -/
def sampleDeployer : Deployer where
  KptV2Deploy :=
    { Dir := "pkg", Flags := ["--verbose"], ApplyFlags := ["--dry-run"], Name := "foo",
      InventoryID := "abc", InventoryNamespace := "custom-ns", Force := false }
  applyDir := "pkg"
  insecureRegistries := []
  labels := []
  globalConfig := ""
  kubeContext := ""
  kubeConfig := ""
  ns := ""

/-- A deployer for the package directory `pkg` with no name, no inventory id,
the default namespace and Force unset. -/
def plainDeployer : Deployer :=
  { sampleDeployer with
    KptV2Deploy :=
      { Dir := "pkg", Flags := ["--verbose"], ApplyFlags := [], Name := "",
        InventoryID := "", InventoryNamespace := "default", Force := false } }

/-- A world with no file and no side effect yet. -/
def emptyWorld : World where
  files := fun _ => none
  events := []

/-- A Kptfile with inventory metadata, further declared content, and one
top-level field that the `KptFile` type does not declare. -/
def sampleKptfile : Content :=
  Content.document
    { Sections := [("apiVersion", "kpt.dev/v1alpha2"), ("kind", "Kptfile")]
      Inventory := some
        { Namespace := "old-ns", Name := "old", InventoryID := "old-id",
          Rest := [("labels", "team: a")] } }
    [("custom", "x")]

/-- A world whose package directory `pkg` holds `sampleKptfile`. -/
def readyWorld : World where
  files := fun path => if path = "pkg/Kptfile" then some sampleKptfile else none
  events := []

/-- A world whose package directory `pkg` holds a Kptfile without inventory
metadata, as `kpt pkg init` leaves it. -/
def bareWorld : World where
  files := fun path =>
    if path = "pkg/Kptfile" then
      some (Content.document { Sections := [("kind", "Kptfile")], Inventory := none } [])
    else none
  events := []

/-- A world whose package directory `pkg` holds a Kptfile that is the yaml
document `null`. -/
def nullWorld : World where
  files := fun path => if path = "pkg/Kptfile" then some Content.null else none
  events := []

/-- An outside world whose disk fills up: the first write succeeds, every later
write fails after the file has been truncated, leaving it empty. -/
def fullDiskEnv : Env :=
  { calmEnv with
    writeFail := fun w _ _ =>
      if w.events = [] then none
      else some (Error.underlying "no space left on device", some (Content.unparseable "")) }

/-- An outside world in which every process exits with status 1. -/
def brokenEnv : Env :=
  { calmEnv with
    RunCmd := fun w _ _ => (some (Error.underlying "exit status 1"), w.files)
    RunCmdOut := fun w _ _ => (.error (Error.underlying "exit status 1"), w.files) }

/-- An outside world in which only the source command fails. -/
def noSourceEnv : Env :=
  { calmEnv with
    RunCmdOut := fun w _ _ => (.error (Error.underlying "exit status 1"), w.files) }

/-- An outside world in which files cannot be written: a write fails and
leaves the file as it was. -/
def readOnlyEnv : Env :=
  { calmEnv with
    writeFail := fun w path _ => some (Error.underlying "permission denied", w.files path) }

/-- An outside world in which `kpt pkg init` creates a Kptfile without
inventory metadata in the directory it is given and other processes leave the
files alone; nothing fails. -/
def kptEnv : Env :=
  { calmEnv with
    RunCmd := fun w _ args =>
      match args with
      | ["pkg", "init", dir] =>
        (none, Function.update w.files (dir ++ "/" ++ "Kptfile")
          (some (Content.document { Sections := [("kind", "Kptfile")], Inventory := none } [])))
      | _ => (none, w.files) }



/-! ## Lemmas on records of side effects -/

/-- The processes of a concatenated record. -/
theorem cmdsOf_append (xs ys : List Event) : cmdsOf (xs ++ ys) = cmdsOf xs ++ cmdsOf ys := by
  induction xs with
  | nil => rfl
  | cons e rest ih => cases e <;> simp [cmdsOf, ih]

/-- The tracked artifact lists of a concatenated record. -/
theorem trackedOf_append (xs ys : List Event) :
    trackedOf (xs ++ ys) = trackedOf xs ++ trackedOf ys := by
  induction xs with
  | nil => rfl
  | cons e rest ih => cases e <;> simp [trackedOf, ih]

/-- The result of `runCmd` is the answer of the oracle. -/
theorem runCmd_fst (env : Env) (w : World) (name : String) (args : List String) :
    (runCmd env w name args).1 = (env.RunCmd w name args).1 := rfl

/-- `runCmd` records exactly the process it runs. -/
theorem runCmd_events (env : Env) (w : World) (name : String) (args : List String) :
    (runCmd env w name args).2.events = w.events ++ [Event.cmd name args] := rfl

/-- `getManifests` records exactly the source command, whatever its outcome. -/
theorem getManifests_events (env : Env) (w : World) (k : Deployer) :
    (getManifests env w k).2.events =
      w.events ++ [Event.cmd "kpt" ["fn", "source", k.applyDir]] := by
  unfold getManifests
  simp only []
  split
  · rfl
  · split
    · rfl
    · split <;> rfl

/-- A failing `getManifests` returns the nil manifest list. -/
theorem getManifests_error_nil (env : Env) (w : World) (k : Deployer) (err : Error)
    (h : (getManifests env w k).1.2 = some err) : (getManifests env w k).1.1 = [] := by
  unfold getManifests at h ⊢
  simp only [] at h ⊢
  split at h
  · simp_all
  · split at h
    · simp_all
    · split at h
      · simp_all
      · simp at h

/-- The nil manifest list declares no namespace and gives no error. -/
theorem CollectNamespaces_nil (env : Env) : CollectNamespaces env [] = ([], none) := by
  simp [CollectNamespaces, declaredNamespaces]

/-- The only process of the collect stage is the source command. -/
theorem collect_cmds (env : Env) (w : World) (k : Deployer) :
    cmdsOf (collect env w k).2.events =
      cmdsOf w.events ++ [("kpt", ["fn", "source", k.applyDir])] := by
  unfold collect
  simp only []
  split <;> split <;>
    simp [World.emit, getManifests_events, cmdsOf_append, cmdsOf]

/-- The collect stage never calls `TrackBuildArtifacts`. -/
theorem collect_tracked (env : Env) (w : World) (k : Deployer) :
    trackedOf (collect env w k).2.events = trackedOf w.events := by
  unfold collect
  simp only []
  split <;> split <;>
    simp [World.emit, getManifests_events, trackedOf_append, trackedOf]

/-- `Deploy` after a successful initialization, when the live-apply command fails. -/
theorem Deploy_apply_fail (kptInitFunc : InitFunc) (env : Env) (w w1 : World) (k : Deployer)
    (builds : List Artifact) (err : Error) (hinit : kptInitFunc w k = (none, w1))
    (hfail : (env.RunCmd (collect env w1 k).2 "kpt" (liveApplyArgs k)).1 = some err) :
    Deploy kptInitFunc env w k builds =
      (([], some (Error.liveApplyErr err k.applyDir)),
        (runCmd env (collect env w1 k).2 "kpt" (liveApplyArgs k)).2) := by
  unfold Deploy
  rw [hinit]
  simp only [runCmd, hfail]

/-- `Deploy` after a successful initialization, when the live-apply command succeeds. -/
theorem Deploy_apply_ok (kptInitFunc : InitFunc) (env : Env) (w w1 : World) (k : Deployer)
    (builds : List Artifact) (hinit : kptInitFunc w k = (none, w1))
    (hok : (env.RunCmd (collect env w1 k).2 "kpt" (liveApplyArgs k)).1 = none) :
    Deploy kptInitFunc env w k builds =
      (((collect env w1 k).1, none),
        TrackBuildArtifacts (runCmd env (collect env w1 k).2 "kpt" (liveApplyArgs k)).2
          builds) := by
  unfold Deploy
  rw [hinit]
  simp only [runCmd, hok]

/-- `Cleanup` after a successful initialization, when the live-destroy command fails. -/
theorem Cleanup_destroy_fail (kptInitFunc : InitFunc) (env : Env) (w w1 : World)
    (k : Deployer) (err : Error) (hinit : kptInitFunc w k = (none, w1))
    (hfail : (env.RunCmd w1 "kpt" (liveDestroyArgs k)).1 = some err) :
    Cleanup kptInitFunc env w k =
      (some (Error.liveDestroyErr err k.applyDir),
        (runCmd env w1 "kpt" (liveDestroyArgs k)).2) := by
  unfold Cleanup
  rw [hinit]
  simp only [runCmd, hfail]

/-- `Cleanup` after a successful initialization, when the live-destroy command succeeds. -/
theorem Cleanup_destroy_ok (kptInitFunc : InitFunc) (env : Env) (w w1 : World)
    (k : Deployer) (hinit : kptInitFunc w k = (none, w1))
    (hok : (env.RunCmd w1 "kpt" (liveDestroyArgs k)).1 = none) :
    Cleanup kptInitFunc env w k = (none, (runCmd env w1 "kpt" (liveDestroyArgs k)).2) := by
  unfold Cleanup
  rw [hinit]
  simp only [runCmd, hok]



/-! ## Lemmas on kptfileInitIfNot -/

/-- A Kptfile that is read successfully exists, opens, and holds a document whose declared
part is the value read. -/
theorem readKptfile_ok (env : Env) (w : World) (path : String) (kf : KptFile)
    (h : readKptfile env w path = .ok (some kf)) :
    ∃ unknown, w.files path = some (Content.document kf unknown) ∧ env.openFail w path = none := by
  unfold readKptfile openFile at h
  cases hf : w.files path with
  | none => simp [hf] at h
  | some c =>
    cases ho : env.openFail w path with
    | some err => simp [hf, ho] at h
    | none =>
      cases c with
      | unparseable bytes => simp [hf, ho, decode] at h
      | null => simp [hf, ho, decode] at h
      | document typed unknown =>
        simp [hf, ho, decode] at h
        exact ⟨unknown, by rw [h], rfl⟩

/-- A document that opens is read as its declared part. -/
theorem readKptfile_of_file (env : Env) (w : World) (path : String) (kf : KptFile)
    (unknown : List (String × String)) (hf : w.files path = some (Content.document kf unknown))
    (ho : env.openFail w path = none) : readKptfile env w path = .ok (some kf) := by
  simp [readKptfile, openFile, hf, ho, decode]

/-- A Kptfile that can be read exists, so `kpt pkg init` is not run. -/
theorem initKptfileIfAbsent_of_read (env : Env) (w : World) (k : Deployer) (kf : KptFile)
    (h : readKptfile env w (env.Join k.applyDir KptFileName) = .ok (some kf)) :
    initKptfileIfAbsent env w k = (none, w) := by
  obtain ⟨unknown, hf, _⟩ := readKptfile_ok env w _ kf h
  simp [initKptfileIfAbsent, hf]

/-- The first stage runs `kpt pkg init` exactly when the Kptfile does not exist. -/
theorem initKptfileIfAbsent_cmds (env : Env) (w : World) (k : Deployer) :
    cmdsOf (initKptfileIfAbsent env w k).2.events =
      cmdsOf w.events ++
        (if w.files (env.Join k.applyDir KptFileName) = none then
          [("kpt", ["pkg", "init", k.applyDir])] else []) := by
  unfold initKptfileIfAbsent
  by_cases hf : w.files (env.Join k.applyDir KptFileName) = none
  · simp only [hf, if_true]
    cases hr : (env.RunCmd w "kpt" ["pkg", "init", k.applyDir]).1 <;>
      simp [runCmd, hr, cmdsOf_append, cmdsOf]
  · simp [hf]

/-- `kptfileInitIfNot` on a Kptfile without inventory metadata: the live-init branch. -/
theorem kptfileInitIfNot_no_inventory (env : Env) (w w1 : World) (k : Deployer) (kf : KptFile)
    (hinit : initKptfileIfAbsent env w k = (none, w1))
    (hread : readKptfile env w1 (env.Join k.applyDir KptFileName) = .ok (some kf))
    (hinv : kf.Inventory = none) :
    kptfileInitIfNot env w k =
      ((env.RunCmd w1 "kpt" (liveInitArgs k)).1.map (fun err => Error.liveInitErr err k.applyDir),
        (runCmd env w1 "kpt" (liveInitArgs k)).2) := by
  unfold kptfileInitIfNot
  simp only [hinit, hread, hinv]
  cases hr : (env.RunCmd w1 "kpt" (liveInitArgs k)).1 <;> simp [runCmd, hr]

/-- `kptfileInitIfNot` on a Kptfile with inventory metadata: the patch branch. -/
theorem kptfileInitIfNot_patch (env : Env) (w : World) (k : Deployer) (kf : KptFile)
    (inv : Inventory)
    (hread : readKptfile env w (env.Join k.applyDir KptFileName) = .ok (some kf))
    (hinv : kf.Inventory = some inv) :
    kptfileInitIfNot env w k =
      match env.marshalFail w (setInventory k kf inv) with
      | some err => (some err, w)
      | none =>
        writeFile env w (env.Join k.applyDir KptFileName)
          (Content.document (setInventory k kf inv) []) := by
  unfold kptfileInitIfNot
  simp only [initKptfileIfAbsent_of_read env w k kf hread, hread, hinv, marshal]
  cases hm : env.marshalFail w (setInventory k kf inv) with
  | some err => simp
  | none =>
    simp only []
    cases hw : env.writeFail w (env.Join k.applyDir KptFileName)
        (Content.document (setInventory k kf inv) []) with
    | some p => obtain ⟨e, left⟩ := p; simp [writeFile, hw]
    | none => simp [writeFile, hw]



/-- `kptfileInitIfNot` on an existing Kptfile that cannot be read. -/
theorem kptfileInitIfNot_read_error (env : Env) (w : World) (k : Deployer) (err : Error)
    (hfile : w.files (env.Join k.applyDir KptFileName) ≠ none)
    (hread : readKptfile env w (env.Join k.applyDir KptFileName) = .error err) :
    kptfileInitIfNot env w k = (some err, w) := by
  unfold kptfileInitIfNot
  simp [initKptfileIfAbsent, hfile, hread]

/-- Assigning the same three fields a second time changes nothing. -/
theorem setInventory_setInventory (k : Deployer) (kf : KptFile) (inv : Inventory) :
    ∃ inv1, (setInventory k kf inv).Inventory = some inv1 ∧
      setInventory k (setInventory k kf inv) inv1 = setInventory k kf inv :=
  ⟨_, rfl, rfl⟩

/-- C2, as amended: on a Kptfile that decodes with inventory metadata, after one
successful call of `kptfileInitIfNot` a second call with the same Deployer runs no process
(as the first ran none); its only possible side effect is a write to the
Kptfile of the very content the first call left there; so it leaves every file
as the first call left it, the one exception being a second call whose own
write fails, which returns that write error. -/
theorem kptfileInitIfNot_idempotent (env : Env) (w w1 : World) (k : Deployer) (kf : KptFile)
    (inv : Inventory)
    (hread : readKptfile env w (env.Join k.applyDir KptFileName) = .ok (some kf))
    (hinv : kf.Inventory = some inv)
    (hfirst : kptfileInitIfNot env w k = (none, w1)) :
    cmdsOf w1.events = cmdsOf w.events ∧
      cmdsOf (kptfileInitIfNot env w1 k).2.events = cmdsOf w1.events ∧
      w1.files (env.Join k.applyDir KptFileName) =
        some (Content.document (setInventory k kf inv) []) ∧
      ((kptfileInitIfNot env w1 k).2.events = w1.events ∨
        (kptfileInitIfNot env w1 k).2.events =
          w1.events ++ [Event.writeFile (env.Join k.applyDir KptFileName)
            (Content.document (setInventory k kf inv) [])]) ∧
      ((kptfileInitIfNot env w1 k).2.files = w1.files ∨
        ∃ err left,
          env.writeFail w1 (env.Join k.applyDir KptFileName)
              (Content.document (setInventory k kf inv) []) = some (err, left) ∧
            (kptfileInitIfNot env w1 k).1 = some err) := by
  rw [kptfileInitIfNot_patch env w k kf inv hread hinv] at hfirst
  cases hm : env.marshalFail w (setInventory k kf inv) with
  | some err => simp [hm] at hfirst
  | none =>
    simp only [hm, writeFile] at hfirst
    cases hw : env.writeFail w (env.Join k.applyDir KptFileName)
        (Content.document (setInventory k kf inv) []) with
    | some p => simp [hw] at hfirst
    | none =>
      simp only [hw, Prod.mk.injEq, true_and] at hfirst
      have hfiles : w1.files (env.Join k.applyDir KptFileName) =
          some (Content.document (setInventory k kf inv) []) := by
        rw [← hfirst]; simp
      have hev : w1.events = w.events ++
          [Event.writeFile (env.Join k.applyDir KptFileName)
            (Content.document (setInventory k kf inv) [])] := by
        rw [← hfirst]
      refine ⟨by simp [hev, cmdsOf_append, cmdsOf], ?_⟩
      cases ho : env.openFail w1 (env.Join k.applyDir KptFileName) with
      | some err =>
        have hr : readKptfile env w1 (env.Join k.applyDir KptFileName) =
            .error (Error.openFileErr err (env.Join k.applyDir KptFileName)) := by
          simp [readKptfile, openFile, hfiles, ho]
        rw [kptfileInitIfNot_read_error env w1 k _ (by simp [hfiles]) hr]
        exact ⟨rfl, hfiles, Or.inl rfl, Or.inl rfl⟩
      | none =>
        have hr := readKptfile_of_file env w1 _ _ _ hfiles ho
        obtain ⟨inv1, hinv1, hset⟩ := setInventory_setInventory k kf inv
        rw [kptfileInitIfNot_patch env w1 k _ inv1 hr hinv1, hset]
        cases hm1 : env.marshalFail w1 (setInventory k kf inv) with
        | some err => exact ⟨rfl, hfiles, Or.inl rfl, Or.inl rfl⟩
        | none =>
          simp only [writeFile]
          cases hw1 : env.writeFail w1 (env.Join k.applyDir KptFileName)
              (Content.document (setInventory k kf inv) []) with
          | some p =>
            obtain ⟨e, left⟩ := p
            exact ⟨by simp [cmdsOf_append, cmdsOf], hfiles, Or.inr rfl,
              Or.inr ⟨e, left, rfl, rfl⟩⟩
          | none =>
            refine ⟨by simp [cmdsOf_append, cmdsOf], hfiles, Or.inr rfl, Or.inl ?_⟩
            simp only []
            rw [← hfiles]
            exact Function.update_eq_self _ _

/-- C2, as stated, fails: the first call on the sample Kptfile succeeds and
leaves the patched descriptor; the second call with the same Deployer writes the
same content again, that write fails after truncating the file, and the Kptfile
is no longer what the first call left. -/
theorem kptfileInitIfNot_second_write_truncates :
    (kptfileInitIfNot fullDiskEnv readyWorld sampleDeployer).1 = none ∧
      (kptfileInitIfNot fullDiskEnv readyWorld sampleDeployer).2.files "pkg/Kptfile" =
        some (Content.document
          { Sections := [("apiVersion", "kpt.dev/v1alpha2"), ("kind", "Kptfile")]
            Inventory := some
              { Namespace := "custom-ns", Name := "foo", InventoryID := "abc",
                Rest := [("labels", "team: a")] } }
          []) ∧
      (kptfileInitIfNot fullDiskEnv
          (kptfileInitIfNot fullDiskEnv readyWorld sampleDeployer).2 sampleDeployer).1 =
        some (Error.underlying "no space left on device") ∧
      (kptfileInitIfNot fullDiskEnv
          (kptfileInitIfNot fullDiskEnv readyWorld sampleDeployer).2
          sampleDeployer).2.files "pkg/Kptfile" =
        some (Content.unparseable "") ∧
      (kptfileInitIfNot fullDiskEnv
          (kptfileInitIfNot fullDiskEnv readyWorld sampleDeployer).2
          sampleDeployer).2.files "pkg/Kptfile" ≠
        (kptfileInitIfNot fullDiskEnv readyWorld sampleDeployer).2.files "pkg/Kptfile" := by
  decide

/-- C3: the Kptfile `pkg/Kptfile` is the yaml document `null`.  It is opened and
decoded without error, the decoded descriptor is nil and so has no inventory
metadata, and `kptfileInitIfNot` panics on the nil pointer: no `kpt live init`
is run, indeed no process at all, although nothing in the outside world fails.
On a Kptfile that decodes to a descriptor without inventory metadata the same
call runs `kpt live init` with the arguments of the claim. -/
theorem kptfileInitIfNot_null_document_panics :
    readKptfile calmEnv nullWorld "pkg/Kptfile" = .ok none ∧
      (kptfileInitIfNot calmEnv nullWorld sampleDeployer).1 =
        some (Error.panic "runtime error: invalid memory address or nil pointer dereference") ∧
      cmdsOf (kptfileInitIfNot calmEnv nullWorld sampleDeployer).2.events = [] ∧
      (kptfileInitIfNot calmEnv bareWorld sampleDeployer).1 = none ∧
      cmdsOf (kptfileInitIfNot calmEnv bareWorld sampleDeployer).2.events =
        [("kpt", ["live", "init", "pkg", "--verbose", "--name", "foo", "--inventory-id", "abc",
          "--namespace", "custom-ns"])] := by
  refine ⟨rfl, ?_, ?_, ?_, ?_⟩ <;> decide

/-- In the patch branch an error of `yaml.Marshal` or of the write is returned
as it is. -/
theorem kptfileInitIfNot_patch_error (env : Env) (w : World) (k : Deployer) (kf : KptFile)
    (inv : Inventory) (err : Error)
    (hread : readKptfile env w (env.Join k.applyDir KptFileName) = .ok (some kf))
    (hinv : kf.Inventory = some inv)
    (hfail : env.marshalFail w (setInventory k kf inv) = some err ∨
      (env.marshalFail w (setInventory k kf inv) = none ∧
        ∃ left, env.writeFail w (env.Join k.applyDir KptFileName)
          (Content.document (setInventory k kf inv) []) = some (err, left))) :
    (kptfileInitIfNot env w k).1 = some err := by
  rw [kptfileInitIfNot_patch env w k kf inv hread hinv]
  rcases hfail with hm | ⟨hm, left, hw⟩
  · simp [hm]
  · simp [hm, writeFile, hw]

/-- C7: the patch of an inventory that is already present, on a write that
fails with "permission denied": `kptfileInitIfNot` returns that underlying
error itself, with no error kind of this package around it and without the
package directory, while a failing `kpt live init` on the same directory comes
back as the live-init error carrying "pkg". -/
theorem kptfileInitIfNot_write_error_unwrapped :
    (kptfileInitIfNot readOnlyEnv readyWorld sampleDeployer).1 =
        some (Error.underlying "permission denied") ∧
      (kptfileInitIfNot brokenEnv bareWorld sampleDeployer).1 =
        some (Error.liveInitErr (Error.underlying "exit status 1") "pkg") := by
  decide



/-! ## NewDeployer -/

/-- C9: `NewDeployer` lets the deploy configuration win over the command-line
options.  Each of inventory namespace, inventory id and name keeps the value of
`d` when that value is non-empty and otherwise takes the value of the option;
the namespace becomes "default" when both are empty, so it is never empty; the
other fields of `d` are kept and `applyDir` is `d.Dir`. -/
theorem NewDeployer_config_wins (cfg : Config) (labels : List (String × String))
    (d : KptV2Deploy) (opts : SkaffoldOptions) :
    (NewDeployer cfg labels d opts).KptV2Deploy.InventoryNamespace =
        (if d.InventoryNamespace ≠ "" then d.InventoryNamespace
         else if opts.InventoryNamespace ≠ "" then opts.InventoryNamespace
         else "default") ∧
      (NewDeployer cfg labels d opts).KptV2Deploy.InventoryID =
        (if d.InventoryID ≠ "" then d.InventoryID else opts.InventoryID) ∧
      (NewDeployer cfg labels d opts).KptV2Deploy.Name =
        (if d.Name ≠ "" then d.Name else opts.InventoryName) ∧
      (NewDeployer cfg labels d opts).KptV2Deploy.InventoryNamespace ≠ "" ∧
      (NewDeployer cfg labels d opts).applyDir = d.Dir ∧
      (NewDeployer cfg labels d opts).KptV2Deploy.Dir = d.Dir ∧
      (NewDeployer cfg labels d opts).KptV2Deploy.Flags = d.Flags ∧
      (NewDeployer cfg labels d opts).KptV2Deploy.ApplyFlags = d.ApplyFlags ∧
      (NewDeployer cfg labels d opts).KptV2Deploy.Force = d.Force := by
  obtain ⟨dir, flags, applyFlags, name, id, nsp, force⟩ := d
  obtain ⟨ons, oid, oname⟩ := opts
  by_cases h1 : nsp = "" <;> by_cases h2 : ons = "" <;> by_cases h3 : id = "" <;>
    by_cases h4 : oid = "" <;> by_cases h5 : name = "" <;> by_cases h6 : oname = "" <;>
    simp [NewDeployer, defaultNs, h1, h2, h3, h4, h5, h6]

/-! ## Deploy -/

/-- C4: when initialization succeeds, `Deploy` runs exactly two processes after
it, the source command and then `kpt` with the arguments "live", "apply",
applyDir, all Flags in order, all ApplyFlags in order. -/
theorem Deploy_runs_live_apply (kptInitFunc : InitFunc) (env : Env) (w w1 : World)
    (k : Deployer) (builds : List Artifact) (hinit : kptInitFunc w k = (none, w1)) :
    cmdsOf (Deploy kptInitFunc env w k builds).2.events =
      cmdsOf w1.events ++
        [("kpt", ["fn", "source", k.applyDir]),
         ("kpt", ["live", "apply", k.applyDir] ++ k.KptV2Deploy.Flags ++
            k.KptV2Deploy.ApplyFlags)] := by
  cases hr : (env.RunCmd (collect env w1 k).2 "kpt" (liveApplyArgs k)).1 with
  | some err =>
    rw [Deploy_apply_fail kptInitFunc env w w1 k builds err hinit hr]
    simp [runCmd_events, cmdsOf_append, cmdsOf, collect_cmds, liveApplyArgs]
  | none =>
    rw [Deploy_apply_ok kptInitFunc env w w1 k builds hinit hr]
    simp [TrackBuildArtifacts, World.emit, runCmd_events, cmdsOf_append, cmdsOf, collect_cmds,
      liveApplyArgs]



/-- C5: when initialization succeeds, a failing live-apply command makes
`Deploy` return the live-apply error for the package directory with no
namespaces and without any call of `TrackBuildArtifacts`; a succeeding one makes
`Deploy` return no error after exactly one call of `TrackBuildArtifacts` with
the supplied artifacts, which is the last thing `Deploy` does. -/
theorem Deploy_tracks_after_apply (kptInitFunc : InitFunc) (env : Env) (w w1 : World)
    (k : Deployer) (builds : List Artifact) (hinit : kptInitFunc w k = (none, w1)) :
    (∀ err, (env.RunCmd (collect env w1 k).2 "kpt" (liveApplyArgs k)).1 = some err →
        (Deploy kptInitFunc env w k builds).1 =
            ([], some (Error.liveApplyErr err k.applyDir)) ∧
          trackedOf (Deploy kptInitFunc env w k builds).2.events = trackedOf w1.events) ∧
      ((env.RunCmd (collect env w1 k).2 "kpt" (liveApplyArgs k)).1 = none →
        (Deploy kptInitFunc env w k builds).1.2 = none ∧
          trackedOf (Deploy kptInitFunc env w k builds).2.events =
            trackedOf w1.events ++ [builds] ∧
          (Deploy kptInitFunc env w k builds).2.events.getLast? =
            some (Event.trackBuildArtifacts builds)) := by
  refine ⟨fun err hr => ?_, fun hr => ?_⟩
  · rw [Deploy_apply_fail kptInitFunc env w w1 k builds err hinit hr]
    simp [runCmd_events, trackedOf_append, trackedOf, collect_tracked]
  · rw [Deploy_apply_ok kptInitFunc env w w1 k builds hinit hr]
    simp [TrackBuildArtifacts, World.emit, runCmd_events, trackedOf_append, trackedOf,
      collect_tracked]

/-- C6: when initialization succeeds and `getManifests` fails, `Deploy` still
runs the live-apply command, and if that command succeeds `Deploy` returns the
empty namespace list and no error.  Whatever `getManifests` and
`CollectNamespaces` return, `Deploy` returns an error exactly when the
live-apply command fails. -/
theorem Deploy_survives_source_failure (kptInitFunc : InitFunc) (env : Env) (w w1 : World)
    (k : Deployer) (builds : List Artifact) (hinit : kptInitFunc w k = (none, w1)) :
    (∀ e, (getManifests env w1 k).1.2 = some e →
        cmdsOf (Deploy kptInitFunc env w k builds).2.events =
            cmdsOf w1.events ++
              [("kpt", ["fn", "source", k.applyDir]), ("kpt", liveApplyArgs k)] ∧
          ((env.RunCmd (collect env w1 k).2 "kpt" (liveApplyArgs k)).1 = none →
            (Deploy kptInitFunc env w k builds).1 = ([], none))) ∧
      ((Deploy kptInitFunc env w k builds).1.2 = none ↔
        (env.RunCmd (collect env w1 k).2 "kpt" (liveApplyArgs k)).1 = none) := by
  refine ⟨fun e he => ⟨?_, fun hr => ?_⟩, ?_⟩
  · cases hr : (env.RunCmd (collect env w1 k).2 "kpt" (liveApplyArgs k)).1 with
    | some err =>
      rw [Deploy_apply_fail kptInitFunc env w w1 k builds err hinit hr]
      simp [runCmd_events, cmdsOf_append, cmdsOf, collect_cmds]
    | none =>
      rw [Deploy_apply_ok kptInitFunc env w w1 k builds hinit hr]
      simp [TrackBuildArtifacts, World.emit, runCmd_events, cmdsOf_append, cmdsOf,
        collect_cmds]
  · rw [Deploy_apply_ok kptInitFunc env w w1 k builds hinit hr]
    have hnil := getManifests_error_nil env w1 k e he
    simp [collect, hnil, CollectNamespaces_nil]
  · cases hr : (env.RunCmd (collect env w1 k).2 "kpt" (liveApplyArgs k)).1 with
    | some err =>
      rw [Deploy_apply_fail kptInitFunc env w w1 k builds err hinit hr]
      simp
    | none =>
      rw [Deploy_apply_ok kptInitFunc env w w1 k builds hinit hr]

/-- C8: when the initialization step returns an error, `Deploy` returns that
error with no namespaces and `Cleanup` returns that error, and both leave the
world as the initialization step left it: no process is run and
`TrackBuildArtifacts` is not called afterwards. -/
theorem init_error_stops (kptInitFunc : InitFunc) (env : Env) (w w1 : World) (k : Deployer)
    (builds : List Artifact) (err : Error) (hinit : kptInitFunc w k = (some err, w1)) :
    Deploy kptInitFunc env w k builds = (([], some err), w1) ∧
      Cleanup kptInitFunc env w k = (some err, w1) ∧
      cmdsOf (Deploy kptInitFunc env w k builds).2.events = cmdsOf w1.events ∧
      trackedOf (Deploy kptInitFunc env w k builds).2.events = trackedOf w1.events ∧
      cmdsOf (Cleanup kptInitFunc env w k).2.events = cmdsOf w1.events := by
  have hD : Deploy kptInitFunc env w k builds = (([], some err), w1) := by
    unfold Deploy
    rw [hinit]
  have hC : Cleanup kptInitFunc env w k = (some err, w1) := by
    unfold Cleanup
    rw [hinit]
  simp [hD, hC]

/-- C10: when initialization succeeds, `Cleanup` runs exactly one process after
it, `kpt` with the arguments "live", "destroy", applyDir and the Flags in order
(no ApplyFlags), and its result is the live-destroy error for the package
directory when that process fails and no error when it does not. -/
theorem Cleanup_runs_live_destroy (kptInitFunc : InitFunc) (env : Env) (w w1 : World)
    (k : Deployer) (hinit : kptInitFunc w k = (none, w1)) :
    cmdsOf (Cleanup kptInitFunc env w k).2.events =
        cmdsOf w1.events ++ [("kpt", ["live", "destroy", k.applyDir] ++ k.KptV2Deploy.Flags)] ∧
      (Cleanup kptInitFunc env w k).1 =
        (env.RunCmd w1 "kpt" (["live", "destroy", k.applyDir] ++ k.KptV2Deploy.Flags)).1.map
          (fun err => Error.liveDestroyErr err k.applyDir) := by
  cases hr : (env.RunCmd w1 "kpt" (liveDestroyArgs k)).1 with
  | some err =>
    rw [Cleanup_destroy_fail kptInitFunc env w w1 k err hinit hr]
    have hr2 : (env.RunCmd w1 "kpt" ("live" :: "destroy" :: k.applyDir :: k.KptV2Deploy.Flags)).1
        = some err := hr
    simp [runCmd_events, cmdsOf_append, cmdsOf, liveDestroyArgs, hr2]
  | none =>
    rw [Cleanup_destroy_ok kptInitFunc env w w1 k hinit hr]
    have hr2 : (env.RunCmd w1 "kpt" ("live" :: "destroy" :: k.applyDir :: k.KptV2Deploy.Flags)).1
        = none := hr
    simp [runCmd_events, cmdsOf_append, cmdsOf, liveDestroyArgs, hr2]



/-! ## kptfileInitIfNot -/

/-- The live-init branch: when the Kptfile decodes to a descriptor (not to nil)
without inventory metadata, `kptfileInitIfNot` runs `kpt` with the arguments
"live", "init", applyDir, the Flags unmodified, then "--name" and the name when
the name is non-empty, "--inventory-id" and the id when the id is non-empty,
"--namespace" and the namespace when it differs from "default", "--force"
"true" when Force is set, in that order; with empty name and id, namespace
"default" and Force unset nothing follows the Flags; and when the Kptfile did
not exist `kpt pkg init applyDir` is run before it.  No other process is run. -/
theorem kptfileInitIfNot_live_init_branch (env : Env) (w w1 : World) (k : Deployer)
    (kf : KptFile) (hinit : initKptfileIfAbsent env w k = (none, w1))
    (hread : readKptfile env w1 (env.Join k.applyDir KptFileName) = .ok (some kf))
    (hinv : kf.Inventory = none) :
    cmdsOf (kptfileInitIfNot env w k).2.events =
        cmdsOf w.events ++
          (if w.files (env.Join k.applyDir KptFileName) = none then
            [("kpt", ["pkg", "init", k.applyDir])] else []) ++
          [("kpt", liveInitArgs k)] ∧
      liveInitArgs k =
        ["live", "init", k.applyDir] ++ k.KptV2Deploy.Flags ++
          (if k.KptV2Deploy.Name ≠ "" then ["--name", k.KptV2Deploy.Name] else []) ++
          (if k.KptV2Deploy.InventoryID ≠ "" then
            ["--inventory-id", k.KptV2Deploy.InventoryID] else []) ++
          (if k.KptV2Deploy.InventoryNamespace ≠ "default" then
            ["--namespace", k.KptV2Deploy.InventoryNamespace] else []) ++
          (if k.KptV2Deploy.Force = true then ["--force", "true"] else []) ∧
      (k.KptV2Deploy.Name = "" → k.KptV2Deploy.InventoryID = "" →
        k.KptV2Deploy.InventoryNamespace = "default" → k.KptV2Deploy.Force = false →
        liveInitArgs k = ["live", "init", k.applyDir] ++ k.KptV2Deploy.Flags) := by
  refine ⟨?_, ?_, ?_⟩
  · rw [kptfileInitIfNot_no_inventory env w w1 k kf hinit hread hinv, runCmd_events,
      cmdsOf_append]
    have h := initKptfileIfAbsent_cmds env w k
    rw [hinit] at h
    simp only [] at h
    rw [h]
    simp [cmdsOf]
  · unfold liveInitArgs
    by_cases h1 : k.KptV2Deploy.Name = "" <;> by_cases h2 : k.KptV2Deploy.InventoryID = "" <;>
      by_cases h3 : k.KptV2Deploy.InventoryNamespace = "default" <;>
      by_cases h4 : k.KptV2Deploy.Force = true <;>
      simp [h1, h2, h3, h4, defaultNs]
  · intro h1 h2 h3 h4
    simp [liveInitArgs, h1, h2, h3, h4, defaultNs]

/-- The live-init branch at concrete inputs: no Kptfile, empty name and id,
namespace "default", Force unset: `kpt pkg init pkg`, then `kpt live init pkg
--verbose`; and the argument list with every optional flag. -/
theorem kptfileInitIfNot_live_init_branch_example :
    emptyWorld.files "pkg/Kptfile" = none ∧
    (initKptfileIfAbsent kptEnv emptyWorld plainDeployer).1 = none ∧
    readKptfile kptEnv (initKptfileIfAbsent kptEnv emptyWorld plainDeployer).2 "pkg/Kptfile" =
      .ok (some { Sections := [("kind", "Kptfile")], Inventory := none }) ∧
    cmdsOf (kptfileInitIfNot kptEnv emptyWorld plainDeployer).2.events =
      [("kpt", ["pkg", "init", "pkg"]), ("kpt", ["live", "init", "pkg", "--verbose"])] ∧
    liveInitArgs { plainDeployer with KptV2Deploy := { plainDeployer.KptV2Deploy with
        Name := "foo", InventoryID := "abc", InventoryNamespace := "custom-ns", Force := true } } =
      ["live", "init", "pkg", "--verbose", "--name", "foo", "--inventory-id", "abc",
        "--namespace", "custom-ns", "--force", "true"] :=
  ⟨rfl, rfl, rfl,
    (kptfileInitIfNot_live_init_branch kptEnv emptyWorld
      (initKptfileIfAbsent kptEnv emptyWorld plainDeployer).2 plainDeployer
      { Sections := [("kind", "Kptfile")], Inventory := none }
      (Prod.ext rfl rfl) rfl rfl).1,
    (kptfileInitIfNot_live_init_branch kptEnv bareWorld bareWorld
      { plainDeployer with KptV2Deploy := { plainDeployer.KptV2Deploy with
        Name := "foo", InventoryID := "abc", InventoryNamespace := "custom-ns", Force := true } }
      { Sections := [("kind", "Kptfile")], Inventory := none }
      (Prod.ext rfl rfl) rfl rfl).2.1⟩

/-- C1, as amended: when the decoded Kptfile has inventory metadata and neither
`yaml.Marshal` nor the write fails, `kptfileInitIfNot` returns no error, runs no
process, and leaves at the Kptfile path the document whose inventory namespace,
id and name are those of the Deployer and whose every other declared part (the
other sections, the rest of the inventory) is what was decoded; the document
holds no field beyond those the `KptFile` type declares, and no other file
changes. -/
theorem kptfileInitIfNot_patches_inventory (env : Env) (w : World) (k : Deployer)
    (kf : KptFile) (inv : Inventory)
    (hread : readKptfile env w (env.Join k.applyDir KptFileName) = .ok (some kf))
    (hinv : kf.Inventory = some inv)
    (hmarshal : env.marshalFail w (setInventory k kf inv) = none)
    (hwrite : env.writeFail w (env.Join k.applyDir KptFileName)
      (Content.document (setInventory k kf inv) []) = none) :
    (kptfileInitIfNot env w k).1 = none ∧
      (kptfileInitIfNot env w k).2.files (env.Join k.applyDir KptFileName) =
        some (Content.document
          { Sections := kf.Sections
            Inventory := some
              { Namespace := k.KptV2Deploy.InventoryNamespace
                Name := k.KptV2Deploy.Name
                InventoryID := k.KptV2Deploy.InventoryID
                Rest := inv.Rest } } []) ∧
      (∀ path, path ≠ env.Join k.applyDir KptFileName →
        (kptfileInitIfNot env w k).2.files path = w.files path) ∧
      cmdsOf (kptfileInitIfNot env w k).2.events = cmdsOf w.events := by
  rw [kptfileInitIfNot_patch env w k kf inv hread hinv]
  simp only [hmarshal, writeFile, hwrite]
  refine ⟨trivial, ?_, ?_, ?_⟩
  · simp [setInventory]
  · intro path hp
    simp [Function.update, hp]
  · simp [cmdsOf_append, cmdsOf]

/-- C1, as stated, fails: the Kptfile that is read has inventory metadata and a
top-level field `custom` that the `KptFile` type does not declare; the call
succeeds, and the Kptfile it leaves has lost that field. -/
theorem kptfileInitIfNot_drops_unknown_fields :
    readyWorld.files (calmEnv.Join sampleDeployer.applyDir KptFileName) =
        some (Content.document
          { Sections := [("apiVersion", "kpt.dev/v1alpha2"), ("kind", "Kptfile")]
            Inventory := some
              { Namespace := "old-ns", Name := "old", InventoryID := "old-id",
                Rest := [("labels", "team: a")] } }
          [("custom", "x")]) ∧
      (kptfileInitIfNot calmEnv readyWorld sampleDeployer).1 = none ∧
      (kptfileInitIfNot calmEnv readyWorld sampleDeployer).2.files
          (calmEnv.Join sampleDeployer.applyDir KptFileName) =
        some (Content.document
          { Sections := [("apiVersion", "kpt.dev/v1alpha2"), ("kind", "Kptfile")]
            Inventory := some
              { Namespace := "custom-ns", Name := "foo", InventoryID := "abc",
                Rest := [("labels", "team: a")] } }
          []) := by
  decide



/-! ## The theorems at concrete inputs -/

/-- Witness of C4: a Kptfile with inventory, nothing fails; the processes of `Deploy` are the
source command and `kpt live apply pkg --verbose --dry-run`. -/
theorem Deploy_runs_live_apply_witness :
    (kptfileInitIfNot calmEnv readyWorld sampleDeployer).1 = none ∧
      cmdsOf (Deploy (kptfileInitIfNot calmEnv) calmEnv readyWorld sampleDeployer []).2.events =
        [("kpt", ["fn", "source", "pkg"]),
         ("kpt", ["live", "apply", "pkg", "--verbose", "--dry-run"])] :=
  ⟨by decide,
    Deploy_runs_live_apply (kptfileInitIfNot calmEnv) calmEnv readyWorld
      (kptfileInitIfNot calmEnv readyWorld sampleDeployer).2 sampleDeployer []
      (Prod.ext (by decide) rfl)⟩

/-- Witness of C5: with every process failing `Deploy` returns the live-apply error for `pkg` and
tracks nothing; with none failing it tracks the one artifact, once, last. -/
theorem Deploy_tracks_after_apply_witness :
    ((Deploy (kptfileInitIfNot brokenEnv) brokenEnv readyWorld sampleDeployer
          [{ ImageName := "img", Tag := "img:v1" }]).1 =
        ([], some (Error.liveApplyErr (Error.underlying "exit status 1") "pkg")) ∧
      trackedOf (Deploy (kptfileInitIfNot brokenEnv) brokenEnv readyWorld sampleDeployer
          [{ ImageName := "img", Tag := "img:v1" }]).2.events = []) ∧
    ((Deploy (kptfileInitIfNot calmEnv) calmEnv readyWorld sampleDeployer
          [{ ImageName := "img", Tag := "img:v1" }]).1.2 = none ∧
      trackedOf (Deploy (kptfileInitIfNot calmEnv) calmEnv readyWorld sampleDeployer
          [{ ImageName := "img", Tag := "img:v1" }]).2.events =
        [[{ ImageName := "img", Tag := "img:v1" }]] ∧
      (Deploy (kptfileInitIfNot calmEnv) calmEnv readyWorld sampleDeployer
          [{ ImageName := "img", Tag := "img:v1" }]).2.events.getLast? =
        some (Event.trackBuildArtifacts [{ ImageName := "img", Tag := "img:v1" }])) :=
  ⟨(Deploy_tracks_after_apply (kptfileInitIfNot brokenEnv) brokenEnv readyWorld
      (kptfileInitIfNot brokenEnv readyWorld sampleDeployer).2 sampleDeployer
      [{ ImageName := "img", Tag := "img:v1" }] (Prod.ext (by decide) rfl)).1
      (Error.underlying "exit status 1") (by decide),
   (Deploy_tracks_after_apply (kptfileInitIfNot calmEnv) calmEnv readyWorld
      (kptfileInitIfNot calmEnv readyWorld sampleDeployer).2 sampleDeployer
      [{ ImageName := "img", Tag := "img:v1" }] (Prod.ext (by decide) rfl)).2 (by decide)⟩

/-- Witness of C6: the source command fails, `kpt live apply` is still run and `Deploy` returns
the empty namespace list and no error. -/
theorem Deploy_survives_source_failure_witness :
    (getManifests noSourceEnv (kptfileInitIfNot noSourceEnv readyWorld sampleDeployer).2
        sampleDeployer).1.2 =
      some (Error.sourceErr (Error.underlying "exit status 1") "pkg") ∧
    cmdsOf (Deploy (kptfileInitIfNot noSourceEnv) noSourceEnv readyWorld sampleDeployer
        []).2.events =
      [("kpt", ["fn", "source", "pkg"]),
       ("kpt", ["live", "apply", "pkg", "--verbose", "--dry-run"])] ∧
    (Deploy (kptfileInitIfNot noSourceEnv) noSourceEnv readyWorld sampleDeployer []).1 =
      ([], none) :=
  ⟨by decide,
    ((Deploy_survives_source_failure (kptfileInitIfNot noSourceEnv) noSourceEnv readyWorld
      (kptfileInitIfNot noSourceEnv readyWorld sampleDeployer).2 sampleDeployer []
      (Prod.ext (by decide) rfl)).1 (Error.sourceErr (Error.underlying "exit status 1") "pkg")
        (by decide)).1,
    ((Deploy_survives_source_failure (kptfileInitIfNot noSourceEnv) noSourceEnv readyWorld
      (kptfileInitIfNot noSourceEnv readyWorld sampleDeployer).2 sampleDeployer []
      (Prod.ext (by decide) rfl)).1 (Error.sourceErr (Error.underlying "exit status 1") "pkg")
        (by decide)).2 (by decide)⟩

/-- Witness of C8: no Kptfile and a failing `kpt pkg init`; `Deploy` and `Cleanup` return the
package-init error and run nothing after that process. -/
theorem init_error_stops_witness :
    (kptfileInitIfNot brokenEnv emptyWorld sampleDeployer).1 =
      some (Error.pkgInitErr (Error.underlying "exit status 1") "pkg") ∧
    (Deploy (kptfileInitIfNot brokenEnv) brokenEnv emptyWorld sampleDeployer []).1 =
      ([], some (Error.pkgInitErr (Error.underlying "exit status 1") "pkg")) ∧
    (Cleanup (kptfileInitIfNot brokenEnv) brokenEnv emptyWorld sampleDeployer).1 =
      some (Error.pkgInitErr (Error.underlying "exit status 1") "pkg") ∧
    cmdsOf (Deploy (kptfileInitIfNot brokenEnv) brokenEnv emptyWorld sampleDeployer
      []).2.events = [("kpt", ["pkg", "init", "pkg"])] :=
  have h := init_error_stops (kptfileInitIfNot brokenEnv) brokenEnv emptyWorld
    (kptfileInitIfNot brokenEnv emptyWorld sampleDeployer).2 sampleDeployer []
    (Error.pkgInitErr (Error.underlying "exit status 1") "pkg") (Prod.ext (by decide) rfl)
  ⟨by decide, congrArg Prod.fst h.1, congrArg Prod.fst h.2.1, h.2.2.1⟩

/-- Witness of C10: `Cleanup` runs `kpt live destroy pkg --verbose`, without error when it
succeeds and with the live-destroy error for `pkg` when it fails. -/
theorem Cleanup_runs_live_destroy_witness :
    (cmdsOf (Cleanup (kptfileInitIfNot calmEnv) calmEnv readyWorld sampleDeployer).2.events =
        [("kpt", ["live", "destroy", "pkg", "--verbose"])] ∧
      (Cleanup (kptfileInitIfNot calmEnv) calmEnv readyWorld sampleDeployer).1 = none) ∧
    (cmdsOf (Cleanup (kptfileInitIfNot brokenEnv) brokenEnv readyWorld
        sampleDeployer).2.events = [("kpt", ["live", "destroy", "pkg", "--verbose"])] ∧
      (Cleanup (kptfileInitIfNot brokenEnv) brokenEnv readyWorld sampleDeployer).1 =
        some (Error.liveDestroyErr (Error.underlying "exit status 1") "pkg")) :=
  ⟨Cleanup_runs_live_destroy (kptfileInitIfNot calmEnv) calmEnv readyWorld
      (kptfileInitIfNot calmEnv readyWorld sampleDeployer).2 sampleDeployer
      (Prod.ext (by decide) rfl),
   Cleanup_runs_live_destroy (kptfileInitIfNot brokenEnv) brokenEnv readyWorld
      (kptfileInitIfNot brokenEnv readyWorld sampleDeployer).2 sampleDeployer
      (Prod.ext (by decide) rfl)⟩



/-- Witness of C1 as amended: the sample Kptfile after the call of the sample deployer. -/
theorem kptfileInitIfNot_patches_inventory_witness :
    readKptfile calmEnv readyWorld "pkg/Kptfile" =
      .ok (some
        { Sections := [("apiVersion", "kpt.dev/v1alpha2"), ("kind", "Kptfile")]
          Inventory := some
            { Namespace := "old-ns", Name := "old", InventoryID := "old-id",
              Rest := [("labels", "team: a")] } }) ∧
    (kptfileInitIfNot calmEnv readyWorld sampleDeployer).1 = none ∧
    (kptfileInitIfNot calmEnv readyWorld sampleDeployer).2.files "pkg/Kptfile" =
      some (Content.document
        { Sections := [("apiVersion", "kpt.dev/v1alpha2"), ("kind", "Kptfile")]
          Inventory := some
            { Namespace := "custom-ns", Name := "foo", InventoryID := "abc",
              Rest := [("labels", "team: a")] } } []) :=
  have h := kptfileInitIfNot_patches_inventory calmEnv readyWorld sampleDeployer
    { Sections := [("apiVersion", "kpt.dev/v1alpha2"), ("kind", "Kptfile")]
      Inventory := some
        { Namespace := "old-ns", Name := "old", InventoryID := "old-id",
          Rest := [("labels", "team: a")] } }
    { Namespace := "old-ns", Name := "old", InventoryID := "old-id",
      Rest := [("labels", "team: a")] } rfl rfl rfl rfl
  ⟨rfl, h.1, h.2.1⟩

/-- Witness of C2: two calls on the sample Kptfile; the second runs no process and leaves the
Kptfile as the first left it. -/
theorem kptfileInitIfNot_idempotent_witness :
    (kptfileInitIfNot calmEnv readyWorld sampleDeployer).1 = none ∧
    cmdsOf (kptfileInitIfNot calmEnv (kptfileInitIfNot calmEnv readyWorld sampleDeployer).2
      sampleDeployer).2.events = [] ∧
    (kptfileInitIfNot calmEnv (kptfileInitIfNot calmEnv readyWorld sampleDeployer).2
        sampleDeployer).2.files "pkg/Kptfile" =
      (kptfileInitIfNot calmEnv readyWorld sampleDeployer).2.files "pkg/Kptfile" :=
  have h := kptfileInitIfNot_idempotent calmEnv readyWorld
    (kptfileInitIfNot calmEnv readyWorld sampleDeployer).2 sampleDeployer
    { Sections := [("apiVersion", "kpt.dev/v1alpha2"), ("kind", "Kptfile")]
      Inventory := some
        { Namespace := "old-ns", Name := "old", InventoryID := "old-id",
          Rest := [("labels", "team: a")] } }
    { Namespace := "old-ns", Name := "old", InventoryID := "old-id",
      Rest := [("labels", "team: a")] } rfl rfl (Prod.ext rfl rfl)
  ⟨rfl, h.2.1, by decide⟩


end Kpt
